import Mathlib

/-!
Shallow embedding of the DHCP message codec from src/dhcp_message.cc
(class DHCPMessage: InitFromBuffer, ParseDHCPOptions, IsValid,
ComputeChecksum), together with theorems settling the frozen claims.

Modelling conventions.
A wire buffer is a List Nat of byte values; multi-byte fields are read
big-endian (the source calls ntohl and ntohs on the packed struct fields).
Machine integers are Nat with explicit reductions modulo 2 to the power 32
or 65536 where the source uses uint32_t and uint16_t arithmetic.
A pointer into the buffer is an absolute byte index.  A dereference of an
index outside the buffer (undefined behaviour in the source) is made
observable: reads that can go out of bounds use List.get?, and a none
result stops the model with the distinguished outcome DecodeError.oobRead,
carrying the offending index.
-/

namespace DhcpClient

/-! Constants, copied from the anonymous namespace of src/dhcp_message.cc
and from the Linux headers the source includes (net/if_arp.h defines
ARPHRD_ETHER = 1, net/if.h defines IFHWADDRLEN = 6). -/

def kClientHardwareAddressLength : Nat := 16
def kServerNameLength : Nat := 64
def kBootFileLength : Nat := 128
def kMagicCookie : Nat := 0x63825363
def kDHCPMessageMaxLength : Nat := 548
def kDHCPMessageMinLength : Nat := 236
def kDHCPMessageBootReply : Nat := 2
def kDHCPOptionPad : Nat := 0
def kDHCPOptionDNSServer : Nat := 6
def kDHCPOptionLeaseTime : Nat := 51
def kDHCPOptionMessageType : Nat := 53
def kDHCPOptionServerIdentifier : Nat := 54
def kDHCPOptionRenewalTime : Nat := 58
def kDHCPOptionRebindingTime : Nat := 59
def kDHCPOptionEnd : Nat := 255
def ARPHRD_ETHER : Nat := 1
def IFHWADDRLEN : Nat := 6

/-- Big-endian 16-bit read at byte offset i (models ntohs on a packed
uint16_t field of RawDHCPMessage). -/
def be16 (buf : List Nat) (i : Nat) : Nat :=
  buf.getD i 0 * 256 + buf.getD (i + 1) 0

/-- Big-endian 32-bit read at byte offset i (models ntohl on a packed
uint32_t field of RawDHCPMessage). -/
def be32 (buf : List Nat) (i : Nat) : Nat :=
  ((buf.getD i 0 * 256 + buf.getD (i + 1) 0) * 256 + buf.getD (i + 2) 0) * 256
    + buf.getD (i + 3) 0

/-- Decoded message value: the fields of class DHCPMessage that
InitFromBuffer and ParseDHCPOptions write.  The client hardware address is
a list of optional bytes because the source copies
hardware_address_length_ bytes starting at offset 28, and that copy can
reach outside the buffer; an in-bounds byte is some b, an out-of-bounds
byte is none. -/
structure DHCPMessage where
  opcode : Nat
  hardware_address_type : Nat
  hardware_address_length : Nat
  relay_hops : Nat
  transaction_id : Nat
  seconds : Nat
  flags : Nat
  client_ip_address : Nat
  your_ip_address : Nat
  next_server_ip_address : Nat
  agent_ip_address : Nat
  cookie : Nat
  client_hardware_address : List (Option Nat)
  servername : List Nat
  bootfile : List Nat
  message_type : Nat
  lease_time : Nat
  server_identifier : Nat
  renewal_time : Nat
  rebinding_time : Nat
  dns_server : List Nat
deriving DecidableEq

/-- A message value with every field zeroed, standing in for a
freshly-constructed DHCPMessage handed to InitFromBuffer. -/
def msg0 : DHCPMessage :=
  { opcode := 0, hardware_address_type := 0, hardware_address_length := 0,
    relay_hops := 0, transaction_id := 0, seconds := 0, flags := 0,
    client_ip_address := 0, your_ip_address := 0, next_server_ip_address := 0,
    agent_ip_address := 0, cookie := 0, client_hardware_address := [],
    servername := [], bootfile := [], message_type := 0, lease_time := 0,
    server_identifier := 0, renewal_time := 0, rebinding_time := 0,
    dns_server := [] }

/-- Typed decode outcomes.  The source reports failure as a bare false
plus a LOG line; each constructor below corresponds to one LOG site, named
as in the specification's error taxonomy.  oobRead idx is the model-level
outcome for a dereference of buffer index idx outside the buffer
(undefined behaviour in the source, not an error return).  outOfFuel is an
artifact of the fuel-based recursion and is unreachable at the fuel used
by InitFromBuffer. -/
inductive DecodeError where
  | invalidLength
  | invalidMessage
  | truncatedOption
  | duplicateOption
  | missingMessageType
  | unterminatedOptions
  | optionDecodeError (tag : Nat)
  | oobRead (idx : Nat)
  | outOfFuel
deriving DecidableEq

/-- Modelled from the spec: class UInt8Parser is declared in
dhcp_client/dhcp_message.h and implemented outside the repository sources;
per the spec a fixed-width unsigned integer decoder fails if the declared
length differs from the expected width (1 byte here) and otherwise yields
the byte value. -/
def uint8ParserGetOption (payload : List Nat) : Option Nat :=
  if payload.length = 1 then some (payload.getD 0 0) else none

/-- Modelled from the spec: class UInt32Parser (4-byte fixed-width
unsigned integer decoder, network byte order converted to host order);
fails if the declared length is not 4. -/
def uint32ParserGetOption (payload : List Nat) : Option Nat :=
  if payload.length = 4 then some (be32 payload 0) else none

/-- Modelled from the spec: class UInt32ListParser (list of 4-byte
unsigned integers preserving wire order); fails if the declared length is
not a positive multiple of 4. -/
def uint32ListParserGetOption (payload : List Nat) : Option (List Nat) :=
  if payload.length ≠ 0 ∧ payload.length % 4 = 0 then
    some ((List.range (payload.length / 4)).map fun k => be32 payload (4 * k))
  else none

/-- Outcome of looking a tag up in options_map_ and, when found, running
the bound parser on the payload: unknown tag (absent from the map, the
option is skipped), parsed (GetOption succeeded and wrote its output
field), or failed (GetOption returned false). -/
inductive OptionApply where
  | unknown
  | parsed (msg : DHCPMessage)
  | failed
deriving DecidableEq

/-- The tag-to-parser registry built in the DHCPMessage constructor
(lines 76-92 of src/dhcp_message.cc): tag 53 to UInt8Parser writing
message_type_, 51 to UInt32Parser writing lease_time_, 54 to UInt32Parser
writing server_identifier_, 58 to UInt32Parser writing renewal_time_, 59
to UInt32Parser writing rebinding_time_, 6 to UInt32ListParser writing
dns_server_.  The parser bodies themselves are modelled from the spec (see
the parser definitions above). -/
def applyOption (tag : Nat) (payload : List Nat) (msg : DHCPMessage) :
    OptionApply :=
  if tag = kDHCPOptionMessageType then
    match uint8ParserGetOption payload with
    | some v => OptionApply.parsed { msg with message_type := v }
    | none => OptionApply.failed
  else if tag = kDHCPOptionLeaseTime then
    match uint32ParserGetOption payload with
    | some v => OptionApply.parsed { msg with lease_time := v }
    | none => OptionApply.failed
  else if tag = kDHCPOptionServerIdentifier then
    match uint32ParserGetOption payload with
    | some v => OptionApply.parsed { msg with server_identifier := v }
    | none => OptionApply.failed
  else if tag = kDHCPOptionRenewalTime then
    match uint32ParserGetOption payload with
    | some v => OptionApply.parsed { msg with renewal_time := v }
    | none => OptionApply.failed
  else if tag = kDHCPOptionRebindingTime then
    match uint32ParserGetOption payload with
    | some v => OptionApply.parsed { msg with rebinding_time := v }
    | none => OptionApply.failed
  else if tag = kDHCPOptionDNSServer then
    match uint32ListParserGetOption payload with
    | some v => OptionApply.parsed { msg with dns_server := v }
    | none => OptionApply.failed
  else OptionApply.unknown

/-- The TLV scan of DHCPMessage::ParseDHCPOptions (lines 144-198).
ptr is the absolute index of the next byte to read and endIdx is the
absolute index corresponding to end_ptr = options + options_length;
options_set is the local std::set of accepted tags, and fuel bounds the
recursion (each iteration advances ptr by at least one, so any fuel of at
least endIdx - ptr + 1 is enough; InitFromBuffer passes length + 1).
The source's loop, in order: while ptr < end_ptr: read the tag byte;
tag 0 (PAD) skips one byte; tag 255 (END) succeeds when tag 53 was
accepted and otherwise fails (MissingMessageType); then, for other tags,
fail if no room for a length byte remains before end_ptr
(TruncatedOption), read the length byte, fail if ptr + length reaches
end_ptr (TruncatedOption), fail if the tag was already accepted
(DuplicateOption), look the tag up, run its parser on the payload
(failure is OptionDecodeError), record accepted known tags, and advance
past the payload; leaving the loop without END is UnterminatedOptions. -/
def ParseDHCPOptions (buf : List Nat) (endIdx fuel : Nat) (msg : DHCPMessage)
    (options_set : List Nat) (ptr : Nat) : Option DecodeError × DHCPMessage :=
  match fuel with
  | 0 => (some DecodeError.outOfFuel, msg)
  | fuel + 1 =>
    if ptr < endIdx then
      match buf.get? ptr with
      | none => (some (DecodeError.oobRead ptr), msg)
      | some option_number =>
        if option_number = kDHCPOptionPad then
          ParseDHCPOptions buf endIdx fuel msg options_set (ptr + 1)
        else if option_number = kDHCPOptionEnd then
          if kDHCPOptionMessageType ∈ options_set then (none, msg)
          else (some DecodeError.missingMessageType, msg)
        else if ptr + 1 ≥ endIdx then (some DecodeError.truncatedOption, msg)
        else
          match buf.get? (ptr + 1) with
          | none => (some (DecodeError.oobRead (ptr + 1)), msg)
          | some option_length =>
            if ptr + 2 + option_length ≥ endIdx then
              (some DecodeError.truncatedOption, msg)
            else if option_number ∈ options_set then
              (some DecodeError.duplicateOption, msg)
            else
              match applyOption option_number
                  ((buf.drop (ptr + 2)).take option_length) msg with
              | OptionApply.parsed msg2 =>
                ParseDHCPOptions buf endIdx fuel msg2
                  (option_number :: options_set) (ptr + 2 + option_length)
              | OptionApply.failed =>
                (some (DecodeError.optionDecodeError option_number), msg)
              | OptionApply.unknown =>
                ParseDHCPOptions buf endIdx fuel msg options_set
                  (ptr + 2 + option_length)
    else (some DecodeError.unterminatedOptions, msg)

/-- Header validation DHCPMessage::IsValid (lines 200-241): opcode must be
BOOTREPLY, hardware address type must be ARPHRD_ETHER, hardware address
length must be IFHWADDRLEN, secs and flags must be zero, and the cookie
must be the DHCP magic cookie. -/
def IsValid (m : DHCPMessage) : Bool :=
  if m.opcode ≠ kDHCPMessageBootReply then false
  else if m.hardware_address_type ≠ ARPHRD_ETHER then false
  else if m.hardware_address_length ≠ IFHWADDRLEN then false
  else if m.seconds ≠ 0 then false
  else if m.flags ≠ 0 then false
  else if m.cookie ≠ kMagicCookie then false
  else true

/-- The unconditional fixed-header extraction of InitFromBuffer
(lines 111-132): every header field of the output message is overwritten
from the packed struct at its fixed offset (op 0, htype 1, hlen 2, hops 3,
xid 4, secs 8, flags 10, ciaddr 12, yiaddr 16, siaddr 20, giaddr 24,
chaddr 28, sname 44, file 108, cookie 236), with network-to-host
conversion on the multi-byte fields.  The chaddr copy takes
hardware_address_length_ bytes starting at offset 28 (the hlen > 16 check
at lines 114-116 only logs and does not clamp), so it is modelled with
List.get? to keep reads beyond the buffer observable.  For buffer lengths
236 to 239 the source reads the four cookie bytes beyond the buffer end;
those unspecified bytes are modelled as 0 by getD. -/
def extractHeader (buf : List Nat) (message : DHCPMessage) : DHCPMessage :=
  { message with
    opcode := buf.getD 0 0
    hardware_address_type := buf.getD 1 0
    hardware_address_length := buf.getD 2 0
    relay_hops := buf.getD 3 0
    transaction_id := be32 buf 4
    seconds := be16 buf 8
    flags := be16 buf 10
    client_ip_address := be32 buf 12
    your_ip_address := be32 buf 16
    next_server_ip_address := be32 buf 20
    agent_ip_address := be32 buf 24
    cookie := be32 buf 236
    client_hardware_address :=
      (List.range (buf.getD 2 0)).map fun i => buf.get? (28 + i)
    servername := (buf.drop 44).take kServerNameLength
    bootfile := (buf.drop 108).take kBootFileLength }

/-- DHCPMessage::InitFromBuffer (lines 96-142).  After the length check,
the source computes
  options_length = buffer + length - raw_message->options + 1
where raw_message->options sits at offset 240, so options_length is the
pointer distance length - 239 and end_ptr = options + options_length is
numerically buffer + length + 1; the scan is therefore bounded by absolute
index length + 1 (for lengths below 240 the size_t value wraps, but the
pointer comparison ptr < end_ptr is still equivalent to ptr < length + 1,
and the loop body never runs).  The pair returned is the success flag
(none for true, some error for false) and the state of *message when the
call returns. -/
def InitFromBuffer (buf : List Nat) (message : DHCPMessage) :
    Option DecodeError × DHCPMessage :=
  if buf.length < kDHCPMessageMinLength ∨ kDHCPMessageMaxLength < buf.length
  then (some DecodeError.invalidLength, message)
  else if IsValid (extractHeader buf message) then
    ParseDHCPOptions buf (buf.length + 1) (buf.length + 1)
      (extractHeader buf message) [] 240
  else (some DecodeError.invalidMessage, extractHeader buf message)

/-- Accumulating 16-bit-word sum of DHCPMessage::ComputeChecksum
(lines 246-253): big-endian word per byte pair, a trailing odd byte in the
high-order position, accumulated in a uint32_t. -/
def checksumAccum : List Nat → Nat → Nat
  | x :: y :: rest, sum => checksumAccum rest ((sum + (x * 256 + y)) % 4294967296)
  | [x], sum => (sum + x * 256) % 4294967296
  | [], sum => sum

/-- DHCPMessage::ComputeChecksum (lines 243-258): word sum, two rounds of
end-around carry folding, ones-complement of the low 16 bits (the source
returns the bitwise complement of the uint16_t cast, which is 65535 minus
the low 16 bits). -/
def ComputeChecksum (data : List Nat) : Nat :=
  let sum0 := checksumAccum data 0
  let sum1 := (sum0 / 65536 + sum0 % 65536) % 4294967296
  let sum2 := (sum1 + sum1 / 65536) % 4294967296
  65535 - sum2 % 65536

/-! Auxiliary definitions used by the verification below. -/

/-- The tuple of the fixed-header fields of a message (everything
InitFromBuffer overwrites before validation; the option fields
message_type, lease_time, server_identifier, renewal_time, rebinding_time
and dns_server are excluded). -/
def fixedHeaderOf (m : DHCPMessage) :=
  (m.opcode, m.hardware_address_type, m.hardware_address_length,
   m.relay_hops, m.transaction_id, m.seconds, m.flags, m.client_ip_address,
   m.your_ip_address, m.next_server_ip_address, m.agent_ip_address, m.cookie,
   m.client_hardware_address, m.servername, m.bootfile)

/-- Unreduced big-endian 16-bit word sum of a byte list, the mathematical
value that checksumAccum accumulates modulo 2 to the power 32. -/
def rawWordSum : List Nat → Nat
  | x :: y :: rest => x * 256 + y + rawWordSum rest
  | [x] => x * 256
  | [] => 0

/-- The end-around carry folding performed by ComputeChecksum after the
word sum, without the nominal uint32_t reductions (which never fire there
because both folding steps stay far below 2 to the power 32). -/
def foldCarry (s : Nat) : Nat :=
  (s / 65536 + s % 65536 + (s / 65536 + s % 65536) / 65536) % 65536

/-- A 240-byte prefix that passes header validation: BOOTREPLY opcode,
Ethernet hardware type, hardware address length 6, zero hops, xid, secs,
flags and addresses, zero chaddr, sname and file, and the magic cookie
0x63825363 at offsets 236 to 239. -/
def hdr240 : List Nat := [2, 1, 6, 0] ++ List.replicate 232 0 ++ [99, 130, 83, 99]

/-- A 241-byte buffer of accepted length whose hardware address length
field claims 17 bytes; byte 9 sits at offset 44, just past the 16-byte
chaddr field (offsets 28 to 43). -/
def bufC3a : List Nat :=
  [2, 1, 17, 0] ++ List.replicate 40 0 ++ [9] ++ List.replicate 191 0 ++
    [99, 130, 83, 99] ++ [255]

/-- Identical to bufC3a except that the byte at offset 44 is 7. -/
def bufC3b : List Nat :=
  [2, 1, 17, 0] ++ List.replicate 40 0 ++ [7] ++ List.replicate 191 0 ++
    [99, 130, 83, 99] ++ [255]

/-! Supporting lemmas. -/

lemma IsValid_iff (m : DHCPMessage) :
    IsValid m = true ↔
      (m.opcode = 2 ∧ m.hardware_address_type = 1 ∧
       m.hardware_address_length = 6 ∧ m.seconds = 0 ∧ m.flags = 0 ∧
       m.cookie = 0x63825363) := by
  simp only [IsValid, kDHCPMessageBootReply, ARPHRD_ETHER, IFHWADDRLEN,
    kMagicCookie]
  split_ifs <;> simp_all

lemma parse_ne_invalidMessage (buf : List Nat) (endIdx : Nat) :
    ∀ (fuel : Nat) (msg : DHCPMessage) (oset : List Nat) (ptr : Nat),
      (ParseDHCPOptions buf endIdx fuel msg oset ptr).1 ≠
        some DecodeError.invalidMessage := by
  intro fuel
  induction fuel with
  | zero => intro msg oset ptr; simp [ParseDHCPOptions]
  | succ n ih =>
    intro msg oset ptr
    simp only [ParseDHCPOptions]
    repeat' split
    all_goals first | exact ih _ _ _ | simp

lemma applyOption_preserves_header (tag : Nat) (payload : List Nat)
    (msg msg2 : DHCPMessage)
    (h : applyOption tag payload msg = OptionApply.parsed msg2) :
    fixedHeaderOf msg2 = fixedHeaderOf msg := by
  simp only [applyOption] at h
  split_ifs at h <;> (try split at h)
  all_goals first
    | (injection h with h2; subst h2; rfl)
    | simp_all

lemma parse_preserves_header (buf : List Nat) (endIdx : Nat) :
    ∀ (fuel : Nat) (msg : DHCPMessage) (oset : List Nat) (ptr : Nat),
      fixedHeaderOf (ParseDHCPOptions buf endIdx fuel msg oset ptr).2 =
        fixedHeaderOf msg := by
  intro fuel
  induction fuel with
  | zero => intro msg oset ptr; simp [ParseDHCPOptions]
  | succ n ih =>
    intro msg oset ptr
    simp only [ParseDHCPOptions]
    repeat' split
    all_goals first
      | rfl
      | exact ih _ _ _
      | (rename_i msg2 heq
         exact (ih _ _ _).trans (applyOption_preserves_header _ _ _ _ heq))

/-! Claims. -/

/-- C4: for every buffer whose length is strictly less than 236 bytes or
strictly greater than 548 bytes, InitFromBuffer fails with InvalidLength,
leaves the output message untouched, and reads no byte of the buffer (any
other buffer of the same length produces the identical outcome, so the
result depends on the length alone). -/
theorem c4_invalid_length_rejected (buf : List Nat) (msg : DHCPMessage)
    (h : buf.length < 236 ∨ 548 < buf.length) :
    InitFromBuffer buf msg = (some DecodeError.invalidLength, msg) ∧
    ∀ buf2 : List Nat, buf2.length = buf.length →
      InitFromBuffer buf2 msg = (some DecodeError.invalidLength, msg) := by
  have hp : ∀ b : List Nat, (b.length < 236 ∨ 548 < b.length) →
      InitFromBuffer b msg = (some DecodeError.invalidLength, msg) := by
    intro b hb
    have hc : b.length < kDHCPMessageMinLength ∨
        kDHCPMessageMaxLength < b.length := by
      simpa [kDHCPMessageMinLength, kDHCPMessageMaxLength] using hb
    simp only [InitFromBuffer]
    rw [if_pos hc]
  exact ⟨hp buf h, fun buf2 h2 => hp buf2 (by omega)⟩

/-- Witness for C4 at a concrete 100-byte buffer. -/
theorem c4_witness :
    InitFromBuffer (List.replicate 100 7) msg0 =
      (some DecodeError.invalidLength, msg0) ∧
    ∀ buf2 : List Nat, buf2.length = (List.replicate 100 7).length →
      InitFromBuffer buf2 msg0 = (some DecodeError.invalidLength, msg0) :=
  c4_invalid_length_rejected (List.replicate 100 7) msg0 (by decide)

/-- C5: for every buffer of accepted length, decode proceeds past header
validation (the result is not InvalidMessage) exactly when the six header
invariants hold on the extracted header: opcode = BOOTREPLY (2), hardware
address type = Ethernet (1), hardware address length = 6, secs = 0,
flags = 0 and cookie = 0x63825363; when any one fails, InitFromBuffer
returns InvalidMessage. -/
theorem c5_header_validation_iff (buf : List Nat) (msg : DHCPMessage)
    (h1 : 236 ≤ buf.length) (h2 : buf.length ≤ 548) :
    (((extractHeader buf msg).opcode = 2 ∧
      (extractHeader buf msg).hardware_address_type = 1 ∧
      (extractHeader buf msg).hardware_address_length = 6 ∧
      (extractHeader buf msg).seconds = 0 ∧
      (extractHeader buf msg).flags = 0 ∧
      (extractHeader buf msg).cookie = 0x63825363) ↔
      (InitFromBuffer buf msg).1 ≠ some DecodeError.invalidMessage) ∧
    (¬ ((extractHeader buf msg).opcode = 2 ∧
        (extractHeader buf msg).hardware_address_type = 1 ∧
        (extractHeader buf msg).hardware_address_length = 6 ∧
        (extractHeader buf msg).seconds = 0 ∧
        (extractHeader buf msg).flags = 0 ∧
        (extractHeader buf msg).cookie = 0x63825363) →
      (InitFromBuffer buf msg).1 = some DecodeError.invalidMessage) := by
  have hn : ¬ (buf.length < kDHCPMessageMinLength ∨
      kDHCPMessageMaxLength < buf.length) := by
    simp only [kDHCPMessageMinLength, kDHCPMessageMaxLength]
    omega
  have hiv := IsValid_iff (extractHeader buf msg)
  by_cases hv : IsValid (extractHeader buf msg) = true
  · have h6 := hiv.mp hv
    constructor
    · refine iff_of_true h6 ?_
      simp only [InitFromBuffer]
      rw [if_neg hn, if_pos hv]
      exact parse_ne_invalidMessage _ _ _ _ _ _
    · intro hc; exact absurd h6 hc
  · have h6 : ¬ _ := fun hh => hv (hiv.mpr hh)
    have hr : (InitFromBuffer buf msg).1 = some DecodeError.invalidMessage := by
      simp only [InitFromBuffer]
      rw [if_neg hn, if_neg hv]
    exact ⟨iff_of_false h6 (by simp [hr]), fun _ => hr⟩

set_option maxRecDepth 100000 in
/-- Witness for C5 at a concrete 241-byte buffer whose header is valid and
whose options area is a bare END tag (the decode then fails later, with
MissingMessageType, which is not InvalidMessage). -/
theorem c5_witness :
    (((extractHeader (hdr240 ++ [255]) msg0).opcode = 2 ∧
      (extractHeader (hdr240 ++ [255]) msg0).hardware_address_type = 1 ∧
      (extractHeader (hdr240 ++ [255]) msg0).hardware_address_length = 6 ∧
      (extractHeader (hdr240 ++ [255]) msg0).seconds = 0 ∧
      (extractHeader (hdr240 ++ [255]) msg0).flags = 0 ∧
      (extractHeader (hdr240 ++ [255]) msg0).cookie = 0x63825363) ↔
      (InitFromBuffer (hdr240 ++ [255]) msg0).1 ≠
        some DecodeError.invalidMessage) ∧
    (¬ ((extractHeader (hdr240 ++ [255]) msg0).opcode = 2 ∧
        (extractHeader (hdr240 ++ [255]) msg0).hardware_address_type = 1 ∧
        (extractHeader (hdr240 ++ [255]) msg0).hardware_address_length = 6 ∧
        (extractHeader (hdr240 ++ [255]) msg0).seconds = 0 ∧
        (extractHeader (hdr240 ++ [255]) msg0).flags = 0 ∧
        (extractHeader (hdr240 ++ [255]) msg0).cookie = 0x63825363) →
      (InitFromBuffer (hdr240 ++ [255]) msg0).1 =
        some DecodeError.invalidMessage) :=
  c5_header_validation_iff (hdr240 ++ [255]) msg0 (by decide) (by decide)

/-- C6: whenever the option scan stands on an END tag (byte 255) inside
its scan range, parsing terminates right there and succeeds exactly when
the message-type option (tag 53) has already been accepted; otherwise it
fails with MissingMessageType, regardless of anything else in the options
area and without touching the message. -/
theorem c6_end_tag_requires_message_type (buf : List Nat)
    (endIdx fuel ptr : Nat) (msg : DHCPMessage) (options_set : List Nat)
    (h1 : ptr < endIdx) (h2 : buf.get? ptr = some 255) :
    ParseDHCPOptions buf endIdx (fuel + 1) msg options_set ptr =
      if 53 ∈ options_set then (none, msg)
      else (some DecodeError.missingMessageType, msg) := by
  simp only [ParseDHCPOptions]
  rw [if_pos h1, h2]
  norm_num [kDHCPOptionPad, kDHCPOptionEnd, kDHCPOptionMessageType]

/-- Witness for C6: a scan standing on END with no accepted tag fails
with MissingMessageType. -/
theorem c6_witness :
    ParseDHCPOptions [255] 1 (5 + 1) msg0 [] 0 =
      if 53 ∈ ([] : List Nat) then (none, msg0)
      else (some DecodeError.missingMessageType, msg0) :=
  c6_end_tag_requires_message_type [255] 1 5 0 msg0 [] (by decide) (by decide)

/-- C8: whenever the option scan stands on a tag that is neither PAD nor
END, the length byte exists and the bound checks pass, but the tag is
already in the set of accepted options, parsing fails with
DuplicateOption at that second occurrence (whatever the payload value,
identical or not). -/
theorem c8_duplicate_option_rejected (buf : List Nat)
    (endIdx fuel ptr t len : Nat) (msg : DHCPMessage) (options_set : List Nat)
    (h1 : ptr < endIdx) (htag : buf.get? ptr = some t)
    (h0 : t ≠ 0) (h255 : t ≠ 255)
    (h2 : ptr + 1 < endIdx) (hlenb : buf.get? (ptr + 1) = some len)
    (h3 : ptr + 2 + len < endIdx) (hdup : t ∈ options_set) :
    ParseDHCPOptions buf endIdx (fuel + 1) msg options_set ptr =
      (some DecodeError.duplicateOption, msg) := by
  have hA : ¬ (ptr + 1 ≥ endIdx) := by omega
  have hB : ¬ (ptr + 2 + len ≥ endIdx) := by omega
  have hlenb2 : buf[ptr + 1]? = some len := by simpa using hlenb
  simp only [ParseDHCPOptions]
  rw [if_pos h1, htag]
  simp [kDHCPOptionPad, kDHCPOptionEnd, h0, h255, hA, hB, hlenb2, hdup]

/-- Witness for C8: a second occurrence of tag 53, within bounds and with
the same length and value as the first, is rejected as DuplicateOption. -/
theorem c8_witness :
    ParseDHCPOptions [53, 1, 7] 4 (3 + 1) msg0 [53] 0 =
      (some DecodeError.duplicateOption, msg0) :=
  c8_duplicate_option_rejected [53, 1, 7] 4 3 0 53 1 msg0 [53] (by decide)
    (by decide) (by decide) (by decide) (by decide) (by decide) (by decide)
    (by decide)

/-- C10: decode is not atomic on error.  For every buffer that passes the
length check but fails later (header validation or option parsing), every
fixed-header field of the returned message state has already been
overwritten with the value extracted from the buffer. -/
theorem c10_decode_not_atomic (buf : List Nat) (msg : DHCPMessage)
    (e : DecodeError) (h1 : 236 ≤ buf.length) (h2 : buf.length ≤ 548)
    (_hfail : (InitFromBuffer buf msg).1 = some e) :
    (InitFromBuffer buf msg).2.opcode = buf.getD 0 0 ∧
    (InitFromBuffer buf msg).2.hardware_address_type = buf.getD 1 0 ∧
    (InitFromBuffer buf msg).2.hardware_address_length = buf.getD 2 0 ∧
    (InitFromBuffer buf msg).2.relay_hops = buf.getD 3 0 ∧
    (InitFromBuffer buf msg).2.transaction_id = be32 buf 4 ∧
    (InitFromBuffer buf msg).2.seconds = be16 buf 8 ∧
    (InitFromBuffer buf msg).2.flags = be16 buf 10 ∧
    (InitFromBuffer buf msg).2.client_ip_address = be32 buf 12 ∧
    (InitFromBuffer buf msg).2.your_ip_address = be32 buf 16 ∧
    (InitFromBuffer buf msg).2.next_server_ip_address = be32 buf 20 ∧
    (InitFromBuffer buf msg).2.agent_ip_address = be32 buf 24 ∧
    (InitFromBuffer buf msg).2.cookie = be32 buf 236 ∧
    (InitFromBuffer buf msg).2.client_hardware_address =
      ((List.range (buf.getD 2 0)).map fun i => buf.get? (28 + i)) ∧
    (InitFromBuffer buf msg).2.servername = (buf.drop 44).take 64 ∧
    (InitFromBuffer buf msg).2.bootfile = (buf.drop 108).take 128 := by
  have hn : ¬ (buf.length < kDHCPMessageMinLength ∨
      kDHCPMessageMaxLength < buf.length) := by
    simp only [kDHCPMessageMinLength, kDHCPMessageMaxLength]
    omega
  have hfix : fixedHeaderOf (InitFromBuffer buf msg).2 =
      fixedHeaderOf (extractHeader buf msg) := by
    simp only [InitFromBuffer]
    rw [if_neg hn]
    by_cases hv : IsValid (extractHeader buf msg) = true
    · rw [if_pos hv]
      exact parse_preserves_header _ _ _ _ _ _
    · rw [if_neg hv]
  simp only [fixedHeaderOf, extractHeader, kServerNameLength, kBootFileLength,
    Prod.mk.injEq] at hfix
  exact hfix

set_option maxRecDepth 100000 in
/-- Witness for C10 at a concrete 241-byte buffer with a zero cookie: the
decode fails with InvalidMessage, yet every fixed-header field of the
returned message equals the value extracted from the buffer. -/
theorem c10_witness :
    (InitFromBuffer ([2, 1, 6, 0] ++ List.replicate 236 0 ++ [255]) msg0).2.opcode =
      ([2, 1, 6, 0] ++ List.replicate 236 0 ++ [255]).getD 0 0 ∧
    (InitFromBuffer ([2, 1, 6, 0] ++ List.replicate 236 0 ++ [255]) msg0).2.hardware_address_type =
      ([2, 1, 6, 0] ++ List.replicate 236 0 ++ [255]).getD 1 0 ∧
    (InitFromBuffer ([2, 1, 6, 0] ++ List.replicate 236 0 ++ [255]) msg0).2.hardware_address_length =
      ([2, 1, 6, 0] ++ List.replicate 236 0 ++ [255]).getD 2 0 ∧
    (InitFromBuffer ([2, 1, 6, 0] ++ List.replicate 236 0 ++ [255]) msg0).2.relay_hops =
      ([2, 1, 6, 0] ++ List.replicate 236 0 ++ [255]).getD 3 0 ∧
    (InitFromBuffer ([2, 1, 6, 0] ++ List.replicate 236 0 ++ [255]) msg0).2.transaction_id =
      be32 ([2, 1, 6, 0] ++ List.replicate 236 0 ++ [255]) 4 ∧
    (InitFromBuffer ([2, 1, 6, 0] ++ List.replicate 236 0 ++ [255]) msg0).2.seconds =
      be16 ([2, 1, 6, 0] ++ List.replicate 236 0 ++ [255]) 8 ∧
    (InitFromBuffer ([2, 1, 6, 0] ++ List.replicate 236 0 ++ [255]) msg0).2.flags =
      be16 ([2, 1, 6, 0] ++ List.replicate 236 0 ++ [255]) 10 ∧
    (InitFromBuffer ([2, 1, 6, 0] ++ List.replicate 236 0 ++ [255]) msg0).2.client_ip_address =
      be32 ([2, 1, 6, 0] ++ List.replicate 236 0 ++ [255]) 12 ∧
    (InitFromBuffer ([2, 1, 6, 0] ++ List.replicate 236 0 ++ [255]) msg0).2.your_ip_address =
      be32 ([2, 1, 6, 0] ++ List.replicate 236 0 ++ [255]) 16 ∧
    (InitFromBuffer ([2, 1, 6, 0] ++ List.replicate 236 0 ++ [255]) msg0).2.next_server_ip_address =
      be32 ([2, 1, 6, 0] ++ List.replicate 236 0 ++ [255]) 20 ∧
    (InitFromBuffer ([2, 1, 6, 0] ++ List.replicate 236 0 ++ [255]) msg0).2.agent_ip_address =
      be32 ([2, 1, 6, 0] ++ List.replicate 236 0 ++ [255]) 24 ∧
    (InitFromBuffer ([2, 1, 6, 0] ++ List.replicate 236 0 ++ [255]) msg0).2.cookie =
      be32 ([2, 1, 6, 0] ++ List.replicate 236 0 ++ [255]) 236 ∧
    (InitFromBuffer ([2, 1, 6, 0] ++ List.replicate 236 0 ++ [255]) msg0).2.client_hardware_address =
      ((List.range (([2, 1, 6, 0] ++ List.replicate 236 0 ++ [255]).getD 2 0)).map
        fun i => ([2, 1, 6, 0] ++ List.replicate 236 0 ++ [255]).get? (28 + i)) ∧
    (InitFromBuffer ([2, 1, 6, 0] ++ List.replicate 236 0 ++ [255]) msg0).2.servername =
      (([2, 1, 6, 0] ++ List.replicate 236 0 ++ [255]).drop 44).take 64 ∧
    (InitFromBuffer ([2, 1, 6, 0] ++ List.replicate 236 0 ++ [255]) msg0).2.bootfile =
      (([2, 1, 6, 0] ++ List.replicate 236 0 ++ [255]).drop 108).take 128 :=
  c10_decode_not_atomic ([2, 1, 6, 0] ++ List.replicate 236 0 ++ [255]) msg0
    DecodeError.invalidMessage (by decide) (by decide) (by decide)

lemma checksumAccum_eq_aux :
    ∀ (n : Nat) (data : List Nat), data.length ≤ n →
      ∀ sum : Nat, sum < 4294967296 →
        checksumAccum data sum = (sum + rawWordSum data) % 4294967296 := by
  intro n
  induction n with
  | zero =>
    intro data hlen sum hsum
    have hnil : data = [] := List.length_eq_zero.mp (Nat.le_zero.mp hlen)
    subst hnil
    simp [checksumAccum, rawWordSum, Nat.mod_eq_of_lt hsum]
  | succ n ih =>
    intro data hlen sum hsum
    match data with
    | [] => simp [checksumAccum, rawWordSum, Nat.mod_eq_of_lt hsum]
    | [x] => simp [checksumAccum, rawWordSum]
    | x :: y :: rest =>
      have hr : rest.length ≤ n := by
        simp only [List.length_cons] at hlen
        omega
      simp only [checksumAccum, rawWordSum]
      rw [ih rest hr _ (Nat.mod_lt _ (by norm_num))]
      rw [Nat.mod_add_mod]
      have he : sum + (x * 256 + y) + rawWordSum rest =
          sum + (x * 256 + y + rawWordSum rest) := by ring
      rw [he]

lemma checksumAccum_eq (data : List Nat) (sum : Nat)
    (hsum : sum < 4294967296) :
    checksumAccum data sum = (sum + rawWordSum data) % 4294967296 :=
  checksumAccum_eq_aux data.length data le_rfl sum hsum

lemma ComputeChecksum_eq (data : List Nat) :
    ComputeChecksum data = 65535 - foldCarry (rawWordSum data % 4294967296) := by
  have h0 : checksumAccum data 0 = rawWordSum data % 4294967296 := by
    simpa using checksumAccum_eq data 0 (by norm_num)
  simp only [ComputeChecksum, h0, foldCarry]
  have hS : rawWordSum data % 4294967296 < 4294967296 :=
    Nat.mod_lt _ (by norm_num)
  have h1 : rawWordSum data % 4294967296 / 65536 +
      rawWordSum data % 4294967296 % 65536 < 4294967296 := by omega
  rw [Nat.mod_eq_of_lt h1]
  have h2 : (rawWordSum data % 4294967296 / 65536 +
        rawWordSum data % 4294967296 % 65536) +
      (rawWordSum data % 4294967296 / 65536 +
        rawWordSum data % 4294967296 % 65536) / 65536 < 4294967296 := by omega
  rw [Nat.mod_eq_of_lt h2]

lemma foldCarry_spec (s : Nat) (hs : s < 4294967296) :
    foldCarry s ≤ 65535 ∧ foldCarry s % 65535 = s % 65535 ∧
      (foldCarry s = 0 ↔ s = 0) := by
  have hq := Nat.div_add_mod s 65536
  have hqb : s / 65536 ≤ 65535 := by omega
  have hrb : s % 65536 ≤ 65535 := by omega
  simp only [foldCarry]
  by_cases hc : s / 65536 + s % 65536 ≤ 65535
  · have hd0 : (s / 65536 + s % 65536) / 65536 = 0 :=
      Nat.div_eq_of_lt (by omega)
    rw [hd0]
    omega
  · have hd1 : (s / 65536 + s % 65536) / 65536 = 1 := by omega
    rw [hd1]
    have hr1 : (s / 65536 + s % 65536 + 1) % 65536 =
        s / 65536 + s % 65536 - 65535 := by omega
    rw [hr1]
    omega

lemma rawWordSum_append_even :
    ∀ (n : Nat) (a b : List Nat), a.length ≤ n → a.length % 2 = 0 →
      rawWordSum (a ++ b) = rawWordSum a + rawWordSum b := by
  intro n
  induction n with
  | zero =>
    intro a b hlen he
    have hnil : a = [] := List.length_eq_zero.mp (Nat.le_zero.mp hlen)
    subst hnil
    simp [rawWordSum]
  | succ n ih =>
    intro a b hlen he
    match a with
    | [] => simp [rawWordSum]
    | [x] => simp at he
    | x :: y :: rest =>
      have h1 : rest.length ≤ n := by
        simp only [List.length_cons] at hlen
        omega
      have h2 : rest.length % 2 = 0 := by
        simp only [List.length_cons] at he
        omega
      rw [List.cons_append, List.cons_append, rawWordSum, rawWordSum,
        ih rest b h1 h2]
      ring

lemma rawWordSum_replicate_zero : ∀ n : Nat, rawWordSum (List.replicate n 0) = 0 := by
  intro n
  induction n using Nat.strong_induction_on with
  | _ n ih =>
    match n with
    | 0 => simp [rawWordSum]
    | 1 => simp [rawWordSum, List.replicate]
    | n + 2 =>
      simp only [List.replicate_succ]
      simp only [rawWordSum]
      rw [ih n (by omega)]

/-- C9: ComputeChecksum implements the Internet ones-complement 16-bit
checksum.  First conjunct: every all-zero buffer of even length checksums
to 0xFFFF.  Second conjunct: an odd trailing byte is treated as the
high-order byte of a final zero-padded word.  Third conjunct: for every
buffer with a zeroed aligned checksum field, writing the computed checksum
back into that field and recomputing yields a residual of 0 (0x0000 after
the final complement). -/
theorem c9_compute_checksum_spec (n : Nat) (d : List Nat) (x : Nat)
    (a b : List Nat) (hd : d.length % 2 = 0) (ha : a.length % 2 = 0) :
    ComputeChecksum (List.replicate (2 * n) 0) = 65535 ∧
    ComputeChecksum (d ++ [x]) = ComputeChecksum (d ++ [x, 0]) ∧
    ComputeChecksum (a ++ ComputeChecksum (a ++ [0, 0] ++ b) / 256 ::
      ComputeChecksum (a ++ [0, 0] ++ b) % 256 :: b) = 0 := by
  refine ⟨?_, ?_, ?_⟩
  · rw [ComputeChecksum_eq, rawWordSum_replicate_zero]
    simp [foldCarry]
  · rw [ComputeChecksum_eq, ComputeChecksum_eq]
    have e1 : rawWordSum (d ++ [x]) = rawWordSum d + x * 256 := by
      rw [rawWordSum_append_even d.length d [x] le_rfl hd]
      simp [rawWordSum]
    have e2 : rawWordSum (d ++ [x, 0]) = rawWordSum d + x * 256 := by
      rw [rawWordSum_append_even d.length d [x, 0] le_rfl hd]
      simp [rawWordSum]
    rw [e1, e2]
  · have hW0 : rawWordSum (a ++ [0, 0] ++ b) =
        rawWordSum a + rawWordSum b := by
      rw [List.append_assoc,
        rawWordSum_append_even a.length a ([0, 0] ++ b) le_rfl ha]
      simp [rawWordSum]
    have hSlt : rawWordSum (a ++ [0, 0] ++ b) % 4294967296 < 4294967296 :=
      Nat.mod_lt _ (by norm_num)
    obtain ⟨hF1, hF2, hF3⟩ :=
      foldCarry_spec (rawWordSum (a ++ [0, 0] ++ b) % 4294967296) hSlt
    have hcR : ComputeChecksum (a ++ [0, 0] ++ b) =
        65535 - foldCarry (rawWordSum (a ++ [0, 0] ++ b) % 4294967296) :=
      ComputeChecksum_eq _
    have hcle : ComputeChecksum (a ++ [0, 0] ++ b) ≤ 65535 := by omega
    have hWa : rawWordSum (a ++ ComputeChecksum (a ++ [0, 0] ++ b) / 256 ::
        ComputeChecksum (a ++ [0, 0] ++ b) % 256 :: b) =
        rawWordSum a + (ComputeChecksum (a ++ [0, 0] ++ b) + rawWordSum b) := by
      rw [rawWordSum_append_even a.length a _ le_rfl ha]
      have htail : rawWordSum (ComputeChecksum (a ++ [0, 0] ++ b) / 256 ::
          ComputeChecksum (a ++ [0, 0] ++ b) % 256 :: b) =
          ComputeChecksum (a ++ [0, 0] ++ b) + rawWordSum b := by
        simp only [rawWordSum]
        omega
      rw [htail]
    have hnw : rawWordSum (a ++ [0, 0] ++ b) % 4294967296 +
        ComputeChecksum (a ++ [0, 0] ++ b) < 4294967296 := by omega
    have hSc : rawWordSum (a ++ ComputeChecksum (a ++ [0, 0] ++ b) / 256 ::
        ComputeChecksum (a ++ [0, 0] ++ b) % 256 :: b) % 4294967296 =
        rawWordSum (a ++ [0, 0] ++ b) % 4294967296 +
          ComputeChecksum (a ++ [0, 0] ++ b) := by
      rw [hWa]
      omega
    rw [ComputeChecksum_eq, hSc]
    obtain ⟨hG1, hG2, hG3⟩ :=
      foldCarry_spec (rawWordSum (a ++ [0, 0] ++ b) % 4294967296 +
        ComputeChecksum (a ++ [0, 0] ++ b)) hnw
    omega

/-- Witness for C9 at concrete inputs: a 4-byte all-zero buffer, an odd
tail after the even-length prefix [1, 2], and the checksum of
[1, 2, 0, 0, 3, 4, 5] written back into its zeroed third and fourth
bytes. -/
theorem c9_witness :
    ComputeChecksum (List.replicate (2 * 2) 0) = 65535 ∧
    ComputeChecksum ([1, 2] ++ [7]) = ComputeChecksum ([1, 2] ++ [7, 0]) ∧
    ComputeChecksum ([1, 2] ++ ComputeChecksum ([1, 2] ++ [0, 0] ++ [3, 4, 5]) / 256 ::
      ComputeChecksum ([1, 2] ++ [0, 0] ++ [3, 4, 5]) % 256 :: [3, 4, 5]) = 0 :=
  c9_compute_checksum_spec 2 [1, 2] 7 [1, 2] [3, 4, 5] (by decide) (by decide)

set_option maxRecDepth 1000000 in
/-- C1, failing input: a 241-byte buffer with a valid header whose options
area is the single bare tag 1 at offset 240, the last byte of the buffer.
No length byte remains, so by the claim the parse should fail with
TruncatedOption; instead the source, whose options_length is computed one
past the true end (end_ptr = buffer + length + 1), dereferences offset 241
of the 241-byte buffer as the length byte. -/
theorem c1_missing_length_byte_read_out_of_bounds :
    (hdr240 ++ [1]).length = 241 ∧
    (InitFromBuffer (hdr240 ++ [1]) msg0).1 = some (DecodeError.oobRead 241) ∧
    (InitFromBuffer (hdr240 ++ [1]) msg0).1 ≠
      some DecodeError.truncatedOption := by decide

set_option maxRecDepth 1000000 in
/-- C2, failing input: a 241-byte buffer with a valid header whose options
area is a single PAD byte.  By the claim, option parsing operates on the
1 byte at offset 240 only and never examines offset 241 = L; instead the
scan range is offsets 240 to L (end_ptr = buffer + length + 1) and the
source dereferences offset 241, one byte past the buffer, as the next
tag. -/
theorem c2_option_scan_examines_byte_at_buffer_length :
    (hdr240 ++ [0]).length = 241 ∧
    (InitFromBuffer (hdr240 ++ [0]) msg0).1 =
      some (DecodeError.oobRead 241) := by decide

set_option maxRecDepth 1000000 in
/-- C3, failing input: a 241-byte accepted-length buffer whose hlen field
claims 17.  Decoding does continue past the hlen sanity check (the
eventual rejection is the later IsValid failure, hlen differs from 6), but
the chaddr extraction copies 17 bytes from offset 28 and therefore reads
offset 44, beyond the 16-byte hardware-address field at offsets 28 to 43:
two buffers that differ only in the byte at offset 44 produce different
clientHardwareAddress values. -/
theorem c3_chaddr_copy_reads_past_sixteen_byte_field :
    (InitFromBuffer bufC3a msg0).2.client_hardware_address.length = 17 ∧
    (InitFromBuffer bufC3a msg0).1 = some DecodeError.invalidMessage ∧
    (InitFromBuffer bufC3b msg0).1 = some DecodeError.invalidMessage ∧
    bufC3a.length = bufC3b.length ∧
    bufC3a.take 44 = bufC3b.take 44 ∧ bufC3a.drop 45 = bufC3b.drop 45 ∧
    (InitFromBuffer bufC3a msg0).2.client_hardware_address ≠
      (InitFromBuffer bufC3b msg0).2.client_hardware_address := by decide

set_option maxRecDepth 1000000 in
/-- C7, failing input: a 242-byte buffer with a valid header whose options
area is two PAD bytes and no END tag.  The scan exhausts the available
bytes without reaching END, so by the claim it should fail with
UnterminatedOptions; instead the source dereferences offset 242, one byte
past the buffer (the natural loop exit at end_ptr = buffer + length + 1 is
reachable only after reading past the end). -/
theorem c7_unterminated_scan_reads_out_of_bounds :
    (hdr240 ++ [0, 0]).length = 242 ∧
    (InitFromBuffer (hdr240 ++ [0, 0]) msg0).1 =
      some (DecodeError.oobRead 242) ∧
    (InitFromBuffer (hdr240 ++ [0, 0]) msg0).1 ≠
      some DecodeError.unterminatedOptions := by decide

end DhcpClient
